import Mathlib

/-!
Shallow embedding of the download orchestration subsystem of the Theia
USGS M2M client (`src/theia/api.py`), together with proofs checking the
natural-language specification against it.

Conventions of the embedding:
* Python machine-level effects (HTTP posts, thread spawns, sleeps) are
  recorded as explicit event traces.
* Remote responses are supplied by oracles (`Nat → RawResponse β`), indexed
  by the POST attempt number within one `_send_request_to_USGS` call.
* `downloadId` values are modelled as `String`; Python's `str()` applied to
  a string id is the identity, so the membership tests
  `str(d["downloadId"]) in request_results["newRecords"]` become plain list
  membership.
* Exceptions are modelled with `Except` / explicit outcome values.
-/

/-- The typed error taxonomy of `src/theia/errors.py` as far as the
transport maps service error codes onto it (`TheiaAPI._check_exceptions`). -/
inductive USGSErr where
  | authentication
  | unauthorized
  | rateLimit
  | datasetAuth
  | generic
deriving DecidableEq

/-- Python exceptions that the modelled code can raise or catch. -/
inductive PyError where
  | typeError
  | usgs (e : USGSErr)
  | exc (msg : String)
deriving DecidableEq

/-- A payload handed to `TheiaAPI._send_request_to_USGS`: either a JSON
string (the result of `json.dumps` / pydantic `to_json`) or a raw Python
dict, as at `api.py:716`. -/
inductive Payload where
  | str (s : String)
  | dict (entries : List (String × String))
deriving DecidableEq

/-- A raw service response: `errorCode` from the response JSON plus the
parsed `data` body.  `TheiaAPI._check_exceptions` looks only at the
error code. -/
structure RawResponse (β : Type) where
  errorCode : Option String
  data : β

/-- `TheiaAPI._check_exceptions` (api.py:364-410): maps the service
`errorCode` to the raised error; `none` means the check passes. -/
def check_exceptions : Option String → Option USGSErr
  | some "AUTH_INVALID" => some USGSErr.authentication
  | some "AUTH_KEY_INVALID" => some USGSErr.authentication
  | some "AUTH_UNAUTHORIZED" => some USGSErr.unauthorized
  | some "RATE_LIMIT" => some USGSErr.rateLimit
  | some "DATASET_AUTH" => some USGSErr.datasetAuth
  | some _ => some USGSErr.generic
  | none => none

/-- Observable outcome of one `_send_request_to_USGS` call: the returned
response or raised error, the number of HTTP POSTs actually issued, and
the `time.sleep` delays performed (seconds). -/
structure SendOutcome (β : Type) where
  result : Except PyError (RawResponse β)
  posts : Nat
  delays : List Nat

/-- `TheiaAPI._send_request_to_USGS` (api.py:316-362).  Rejects non-string
payloads with `TypeError` before posting; posts once, and on a
`USGSRateLimitError` from `_check_exceptions` sleeps 3 seconds and posts
exactly once more, re-checking the second response.  The oracle gives the
remote's response to each successive POST of this one call. -/
def send_request_to_USGS {β : Type} (payload : Payload) (oracle : Nat → RawResponse β) :
    SendOutcome β :=
  match payload with
  | Payload.dict _ => ⟨Except.error PyError.typeError, 0, []⟩
  | Payload.str _ =>
    match check_exceptions (oracle 0).errorCode with
    | none => ⟨Except.ok (oracle 0), 1, []⟩
    | some USGSErr.rateLimit =>
      match check_exceptions (oracle 1).errorCode with
      | none => ⟨Except.ok (oracle 1), 2, [3]⟩
      | some e => ⟨Except.error (PyError.usgs e), 2, [3]⟩
    | some e => ⟨Except.error (PyError.usgs e), 1, []⟩

/- ------------------------------------------------------------------ -/
/- The bounded fetch worker `TheiaAPI._download_file` (api.py:748-779). -/

/-- Events performed by one fetch worker, in order. -/
inductive WEvent where
  | acquire
  | write (filename : String)
  | logErr
  | release
deriving DecidableEq

/-- The possible courses of the `try` body of `_download_file`:
the `content-disposition` header is present and the streamed write
succeeds; the header is absent (logged skip, no write); or some exception
(network error, disk error, malformed header) is raised inside the body. -/
inductive FetchOutcome where
  | success (filename : String)
  | missingHeader
  | raised (e : PyError)

/-- The `try` body of `_download_file` (api.py:767-774): returns the events
it performs, or the exception it raises. -/
def download_file_body : FetchOutcome → Except PyError (List WEvent)
  | FetchOutcome.success fn => Except.ok [WEvent.write fn]
  | FetchOutcome.missingHeader => Except.ok []
  | FetchOutcome.raised e => Except.error e

/-- `TheiaAPI._download_file` (api.py:748-779): acquire the shared gate,
run the body, catch and log any `Exception`, and release the gate in the
`finally` block.  Returns the worker's event trace and the exception that
escapes the worker (if any). -/
def download_file (o : FetchOutcome) : List WEvent × Option PyError :=
  let bodyRun :=
    match download_file_body o with
    | Except.ok evs => (evs, (none : Option PyError))
    | Except.error _ => ([WEvent.logErr], none)
  (WEvent.acquire :: bodyRun.1 ++ [WEvent.release], bodyRun.2)

/- ------------------------------------------------------------------ -/
/- The process-wide concurrency gate `_sema` (api.py:46-48).            -/

/-- `MAX_THREADS` (api.py:46), the semaphore's initial value. -/
def MAX_THREADS : Nat := 5

/-- Abstract state of the process: the single module-level semaphore
`_sema` (its remaining permits) plus counts of fetch workers in each
phase.  Workers are symmetric with respect to the gate, so counting them
is a faithful abstraction; workers spawned by distinct concurrent
`download_scene` calls all act on the same `permits` field, because
`_sema` is a module-level global shared by every call in the process. -/
structure PoolState where
  permits : Nat
  waiting : Nat
  holding : Nat
  finished : Nat
deriving DecidableEq

/-- Initial process state: `_sema = threading.Semaphore(MAX_THREADS)`,
no workers yet. -/
def poolInit : PoolState := ⟨MAX_THREADS, 0, 0, 0⟩

/-- One scheduler step of the process.  `spawn` is `_run_download`
starting a worker thread (from any `download_scene` call, at any time);
`acquire` is a waiting worker's `_sema.acquire()` returning, possible
only while a permit remains; `release` is a holding worker's
`_sema.release()` in its `finally` block. -/
inductive PoolStep : PoolState → PoolState → Prop where
  | spawn (s : PoolState) :
      PoolStep s ⟨s.permits, s.waiting + 1, s.holding, s.finished⟩
  | acquire (s : PoolState) : 0 < s.permits → 0 < s.waiting →
      PoolStep s ⟨s.permits - 1, s.waiting - 1, s.holding + 1, s.finished⟩
  | release (s : PoolState) : 0 < s.holding →
      PoolStep s ⟨s.permits + 1, s.waiting, s.holding - 1, s.finished + 1⟩

/-- States reachable from process start under any interleaving. -/
def PoolReachable : PoolState → Prop := Relation.ReflTransGen PoolStep poolInit

theorem pool_permits_holding (s : PoolState) (h : PoolReachable s) :
    s.permits + s.holding = MAX_THREADS := by
  induction h with
  | refl => rfl
  | tail _ step ih =>
    cases step with
    | spawn => simpa using ih
    | acquire hp hw => simp at ih ⊢; omega
    | release hh => simp at ih ⊢; omega

/-- C1: across all concurrent `download_scene` calls in one process, at no
reachable state do more than `MAX_THREADS` (= 5) workers hold an acquired
slot of the single shared gate `_sema` simultaneously, for every pattern
and timing of FetchTask submissions. -/
theorem gate_holders_bounded (s : PoolState) (h : PoolReachable s) :
    s.holding ≤ MAX_THREADS ∧ MAX_THREADS = 5 := by
  have hinv := pool_permits_holding s h
  exact ⟨by omega, rfl⟩

/-- Witness for C1: the bound instantiated at the initial state. -/
theorem gate_holders_bounded_witness :
    PoolReachable poolInit ∧ poolInit.holding ≤ MAX_THREADS ∧ MAX_THREADS = 5 :=
  ⟨Relation.ReflTransGen.refl, gate_holders_bounded poolInit Relation.ReflTransGen.refl⟩

/-- C2: for every terminal outcome of a fetch worker — success, missing
`content-disposition` header, or any raised exception — `_download_file`
acquires the gate exactly once and releases it exactly once, with the
release as the very last action (the `finally` block). -/
theorem fetch_gate_release_exactly_once (o : FetchOutcome) :
    (download_file o).1.count WEvent.release = 1
    ∧ (download_file o).1.getLast? = some WEvent.release
    ∧ (download_file o).1.count WEvent.acquire = 1 := by
  cases o with
  | success fn =>
    refine ⟨?_, rfl, ?_⟩ <;>
      simp [download_file, download_file_body, List.count_cons, List.count_nil]
  | missingHeader => exact ⟨rfl, rfl, rfl⟩
  | raised e => exact ⟨rfl, rfl, rfl⟩

/- ------------------------------------------------------------------ -/
/- Orchestrator data model (api.py:566-726).                           -/

/-- One entry of the `download-options` response `data` list
(api.py:606-612): only `entityId`, `id` and `available` are consumed. -/
structure Product where
  entityId : String
  id : String
  available : Bool
deriving DecidableEq

/-- One element of the `downloads` list submitted to `download-request`
(api.py:608-612). -/
structure Candidate where
  entityId : String
  productId : String
deriving DecidableEq

/-- A `(downloadId, url)` pair as appearing in `availableDownloads` or in
the `available` / `requested` lists of a retrieve response. -/
structure DownloadEntry where
  downloadId : String
  url : String
deriving DecidableEq

/-- The `data` body of a `download-request` response (api.py:625-645,
685-707): the fields the code reads. -/
structure RequestResults where
  newRecords : List String
  duplicateProducts : List String
  failed : List String
  preparingDownloads : Bool
  availableDownloads : List DownloadEntry
deriving DecidableEq

/-- The `data` body of a `download-retrieve` response. -/
structure RetrieveResponse where
  available : List DownloadEntry
  requested : List DownloadEntry
deriving DecidableEq

/-- Observable events of one `download_scene` call: an invocation of
`_send_request_to_USGS` for an endpoint with a given payload, a FetchTask
spawn (`_run_download(url, path)`, recorded with the entry's downloadId),
and a `time.sleep`. -/
inductive Event where
  | call (endpoint : String) (payload : Payload)
  | dispatch (downloadId : String) (url : String)
  | sleep (seconds : Nat)
deriving DecidableEq

/-- Terminal outcome of `download_scene` / `_manage_downloads`: normal
return, a propagated exception, or poll-loop fuel exhaustion (the real
loop has no iteration cap; fuel only truncates the model). -/
inductive Outcome where
  | ok
  | raised (e : PyError)
  | fuelOut
deriving DecidableEq

/-- `datetime.datetime.now().strftime("%Y%m%d_%H%M%S")` with the clock
reading `t` (seconds): modelled as the decimal print of `t`, which like
`strftime` at second precision is injective on distinct seconds. -/
def strftime (t : Nat) : String := toString t

/-- Model of `json.dumps({"label": label})` (api.py:634): a string
embedding the label. -/
def jsonDumpsLabel (label : String) : String := "label:" ++ label

/-- Model of the pydantic `DownloadOptionsPayload(...).to_json()` string
(api.py:595-600): its content is irrelevant to the claims, only its
being a string matters. -/
def optionsPayloadJson (datasetName : String) : String :=
  "datasetName:" ++ datasetName

/-- Model of `json.dumps({"downloads": downloads, "label": label})`
(api.py:623-627). -/
def requestPayloadJson (downloads : List Candidate) (label : String) : String :=
  "downloads:"
    ++ String.intercalate "," (downloads.map (fun c => c.entityId ++ "/" ++ c.productId))
    ++ ";label:" ++ label

/-- The retrieve payload built inside the polling loop (api.py:716):
`payload = {"label": label}` — a raw Python dict, NOT passed through
`json.dumps`. -/
def retrieveLoopPayload (label : String) : Payload :=
  Payload.dict [("label", label)]

/-- The filtered-projection of the `download-options` response
(api.py:608-612): keep products whose `available` flag is set, project to
`(entityId, productId)` pairs. -/
def candidatesOf (ps : List Product) : List Candidate :=
  (ps.filter (fun p => p.available)).map (fun p => ⟨p.entityId, p.id⟩)

/-- The membership test applied to each retrieve-response entry
(api.py:686-689, 719-723): `str(downloadId)` in `newRecords` or in
`duplicateProducts` (ids are strings here, so `str` is the identity). -/
def inRecords (rr : RequestResults) (d : DownloadEntry) : Bool :=
  rr.newRecords.contains d.downloadId || rr.duplicateProducts.contains d.downloadId

/-- The two initial dispatch passes of `_manage_downloads`
(api.py:685-699): scan a list of entries; each entry passing `inRecords`
is appended to `download_ids` and handed to `_run_download` — with NO
check against already-present ids.  Returns the grown `download_ids` and
the events of this pass. -/
def dispatch_pass (rr : RequestResults) :
    List DownloadEntry → List String → List String × List Event
  | [], ids => (ids, [])
  | d :: ds, ids =>
    if inRecords rr d then
      let r := dispatch_pass rr ds (ids ++ [d.downloadId])
      (r.1, Event.dispatch d.downloadId d.url :: r.2)
    else dispatch_pass rr ds ids

/-- The dispatch pass used inside the polling loop (api.py:718-725): same
as `dispatch_pass` but an entry is skipped when its downloadId is already
in `download_ids`. -/
def dispatch_pass_dedup (rr : RequestResults) :
    List DownloadEntry → List String → List String × List Event
  | [], ids => (ids, [])
  | d :: ds, ids =>
    if ¬ ids.contains d.downloadId ∧ inRecords rr d then
      let r := dispatch_pass_dedup rr ds (ids ++ [d.downloadId])
      (r.1, Event.dispatch d.downloadId d.url :: r.2)
    else dispatch_pass_dedup rr ds ids

/-- The `while` loop of `_manage_downloads` (api.py:701-725), fuelled.
Guard: `len(download_ids) < requested_download_count - len(failed)`
(Python's comparison against a possibly negative right side agrees with
truncated `Nat` subtraction here, since `len(download_ids) ≥ 0`).
Body: sleep 30 seconds, regenerate `label` from the current clock
(`times i` for iteration `i`), build the payload as a raw dict, and call
`_send_request_to_USGS`; on a response, scan its `available` list with
the dedup pass and iterate.  (In the source the response object is then
subscripted directly without `.json()` — unreachable, see the TypeError.)
-/
def manage_downloads_loop (rr : RequestResults) (k : Nat)
    (pollO : Nat → Nat → RawResponse RetrieveResponse) (times : Nat → Nat) :
    Nat → Nat → List String → List Event × Outcome
  | 0, _, ids =>
    if ids.length < k - rr.failed.length then ([], Outcome.fuelOut)
    else ([], Outcome.ok)
  | fuel + 1, i, ids =>
    if ids.length < k - rr.failed.length then
      let label := strftime (times i)
      let payload := retrieveLoopPayload label
      let send := send_request_to_USGS payload (pollO i)
      let evs0 := [Event.sleep 30, Event.call "download-retrieve" payload]
      match send.result with
      | Except.error e => (evs0, Outcome.raised e)
      | Except.ok raw =>
        let r := dispatch_pass_dedup rr raw.data.available ids
        let rec' := manage_downloads_loop rr k pollO times fuel (i + 1) r.1
        (evs0 ++ r.2 ++ rec'.1, rec'.2)
    else ([], Outcome.ok)

/-- `TheiaAPI._manage_downloads` (api.py:656-725): process the first
retrieve response's `available` then `requested` lists (no dedup), then
run the polling loop. -/
def manage_downloads (more : RetrieveResponse) (rr : RequestResults) (k : Nat)
    (pollO : Nat → Nat → RawResponse RetrieveResponse) (times : Nat → Nat)
    (fuel : Nat) : List Event × Outcome :=
  let p1 := dispatch_pass rr more.available []
  let p2 := dispatch_pass rr more.requested p1.1
  let lp := manage_downloads_loop rr k pollO times fuel 0 p2.1
  (p1.2 ++ p2.2 ++ lp.1, lp.2)

/-- The remote service as seen by one `download_scene` call: a response
oracle per endpoint call site (each `Nat → RawResponse _` indexes POST
attempts within one `_send_request_to_USGS` call; `loopPoll i` serves
loop iteration `i`). -/
structure Remote where
  options : Nat → RawResponse (List Product)
  request : Nat → RawResponse RequestResults
  retrieve : Nat → RawResponse RetrieveResponse
  loopPoll : Nat → Nat → RawResponse RetrieveResponse

/-- `TheiaAPI.download_scene` (api.py:566-654).  `t0` is the clock at
label generation (api.py:622), `times` the clock at each loop poll.
The options call's `USGSDatasetAuthError` is caught and logged, leaving
`downloads = []`; any other error from it propagates.  An empty
`downloads` list short-circuits with no request submitted.  Otherwise the
batch is submitted with a fresh timestamp label; if `preparingDownloads`
the first retrieve is issued with that same label (as a JSON string) and
`_manage_downloads` takes over; else one FetchTask per `availableDownloads`
entry is spawned.  (The terminal join of worker threads performs no
observable event here.) -/
def download_scene (datasetName : String) (remote : Remote) (t0 : Nat)
    (times : Nat → Nat) (fuel : Nat) : List Event × Outcome :=
  let optPayload := Payload.str (optionsPayloadJson datasetName)
  let ev0 := [Event.call "download-options" optPayload]
  match (send_request_to_USGS optPayload remote.options).result with
  | Except.error (PyError.usgs USGSErr.datasetAuth) => (ev0, Outcome.ok)
  | Except.error e => (ev0, Outcome.raised e)
  | Except.ok rawO =>
    let downloads := candidatesOf rawO.data
    if downloads.isEmpty then (ev0, Outcome.ok)
    else
      let k := downloads.length
      let label := strftime t0
      let reqPayload := Payload.str (requestPayloadJson downloads label)
      let ev1 := ev0 ++ [Event.call "download-request" reqPayload]
      match (send_request_to_USGS reqPayload remote.request).result with
      | Except.error e => (ev1, Outcome.raised e)
      | Except.ok rawReq =>
        if rawReq.data.preparingDownloads then
          let retrPayload := Payload.str (jsonDumpsLabel label)
          let ev2 := ev1 ++ [Event.call "download-retrieve" retrPayload]
          match (send_request_to_USGS retrPayload remote.retrieve).result with
          | Except.error e => (ev2, Outcome.raised e)
          | Except.ok rawRetr =>
            let md := manage_downloads rawRetr.data rawReq.data k
              remote.loopPoll times fuel
            (ev2 ++ md.1, md.2)
        else
          (ev1 ++ rawReq.data.availableDownloads.map
            (fun d => Event.dispatch d.downloadId d.url), Outcome.ok)

/-- The dispatch events of a trace (FetchTask spawns). -/
def dispatchEvents (evs : List Event) : List Event :=
  evs.filter (fun e => match e with
    | Event.dispatch _ _ => true
    | _ => false)

/-- Number of `_send_request_to_USGS` invocations for a given endpoint in
a trace. -/
def callCount (endpoint : String) (evs : List Event) : Nat :=
  (evs.filter (fun e => match e with
    | Event.call ep _ => ep == endpoint
    | _ => false)).length

/-- Number of `time.sleep` events in a trace. -/
def sleepCount (evs : List Event) : Nat :=
  (evs.filter (fun e => match e with
    | Event.sleep _ => true
    | _ => false)).length

/- ------------------------------------------------------------------ -/
/- Helper lemmas on the dispatch passes and the polling loop.          -/

theorem dispatch_pass_eq (rr : RequestResults) (ds : List DownloadEntry)
    (ids : List String) :
    dispatch_pass rr ds ids =
      (ids ++ (ds.filter (inRecords rr)).map (fun d => d.downloadId),
       (ds.filter (inRecords rr)).map (fun d => Event.dispatch d.downloadId d.url)) := by
  induction ds generalizing ids with
  | nil => simp [dispatch_pass]
  | cons d ds ih =>
    by_cases h : inRecords rr d
    · simp [dispatch_pass, h, ih, List.filter_cons]
    · simp [dispatch_pass, h, ih, List.filter_cons]

theorem dispatch_pass_dedup_events (rr : RequestResults) (ds : List DownloadEntry)
    (ids : List String) :
    ∀ i u, Event.dispatch i u ∈ (dispatch_pass_dedup rr ds ids).2 →
      inRecords rr ⟨i, u⟩ = true := by
  induction ds generalizing ids with
  | nil => intro i u h; simp [dispatch_pass_dedup] at h
  | cons d ds ih =>
    intro i u h
    by_cases hc : ¬ ids.contains d.downloadId ∧ inRecords rr d
    · simp only [dispatch_pass_dedup, if_pos hc, List.mem_cons] at h
      rcases h with h | h
      · cases h; exact hc.2
      · exact ih _ i u h
    · simp only [dispatch_pass_dedup, if_neg hc] at h
      exact ih _ i u h

theorem manage_loop_exit (rr : RequestResults) (k : Nat)
    (pollO : Nat → Nat → RawResponse RetrieveResponse) (times : Nat → Nat)
    (fuel i : Nat) (ids : List String)
    (h : k - rr.failed.length ≤ ids.length) :
    manage_downloads_loop rr k pollO times fuel i ids = ([], Outcome.ok) := by
  have h' : ¬ ids.length < k - rr.failed.length := by omega
  cases fuel <;> simp [manage_downloads_loop, h']

theorem manage_loop_enter (rr : RequestResults) (k : Nat)
    (pollO : Nat → Nat → RawResponse RetrieveResponse) (times : Nat → Nat)
    (fuel i : Nat) (ids : List String)
    (h : ids.length < k - rr.failed.length) :
    manage_downloads_loop rr k pollO times (fuel + 1) i ids =
      ([Event.sleep 30,
        Event.call "download-retrieve" (retrieveLoopPayload (strftime (times i)))],
       Outcome.raised PyError.typeError) := by
  simp [manage_downloads_loop, h, send_request_to_USGS, retrieveLoopPayload]

theorem manage_loop_no_dispatch (rr : RequestResults) (k : Nat)
    (pollO : Nat → Nat → RawResponse RetrieveResponse) (times : Nat → Nat)
    (fuel i : Nat) (ids : List String) :
    dispatchEvents (manage_downloads_loop rr k pollO times fuel i ids).1 = [] := by
  by_cases h : ids.length < k - rr.failed.length
  · cases fuel with
    | zero => simp [manage_downloads_loop, h, dispatchEvents]
    | succ fuel => rw [manage_loop_enter rr k pollO times fuel i ids h]; rfl
  · rw [manage_loop_exit rr k pollO times fuel i ids (by omega)]; rfl

theorem manage_loop_no_sleep_of_exit (rr : RequestResults) (k : Nat)
    (pollO : Nat → Nat → RawResponse RetrieveResponse) (times : Nat → Nat)
    (fuel i : Nat) (ids : List String)
    (h : k - rr.failed.length ≤ ids.length) :
    sleepCount (manage_downloads_loop rr k pollO times fuel i ids).1 = 0 := by
  rw [manage_loop_exit rr k pollO times fuel i ids h]; rfl

theorem sleepCount_dispatch_map (l : List DownloadEntry) :
    sleepCount (l.map (fun d => Event.dispatch d.downloadId d.url)) = 0 := by
  induction l with
  | nil => rfl
  | cons d l ih =>
    rw [List.map_cons]
    simp only [sleepCount, List.filter_cons] at ih ⊢
    exact ih

/-- The resolved-id list after the two initial passes of
`_manage_downloads` (before the loop is first examined). -/
def resolvedAfterFirst (more : RetrieveResponse) (rr : RequestResults) : List String :=
  (dispatch_pass rr more.requested (dispatch_pass rr more.available []).1).1

theorem sleepCount_append (a b : List Event) :
    sleepCount (a ++ b) = sleepCount a + sleepCount b := by
  simp [sleepCount, List.filter_append]

theorem dispatchEvents_append (a b : List Event) :
    dispatchEvents (a ++ b) = dispatchEvents a ++ dispatchEvents b := by
  simp [dispatchEvents, List.filter_append]

theorem callCount_append (ep : String) (a b : List Event) :
    callCount ep (a ++ b) = callCount ep a + callCount ep b := by
  simp [callCount, List.filter_append]

/- ------------------------------------------------------------------ -/
/- Claim theorems: transport (C10, C8).                                -/

/-- C10: for every payload value that is not a string,
`_send_request_to_USGS` raises `TypeError` before issuing any HTTP POST,
whatever the remote would have answered; and the polling loop's retrieve
payload (`retrieveLoopPayload`) is such a non-string value. -/
theorem nonstring_payload_type_error {β : Type} (p : Payload)
    (oracle : Nat → RawResponse β) (h : ∀ s, p ≠ Payload.str s) :
    (send_request_to_USGS p oracle).result = Except.error PyError.typeError
    ∧ (send_request_to_USGS p oracle).posts = 0
    ∧ (∀ label s, retrieveLoopPayload label ≠ Payload.str s) := by
  cases p with
  | str s => exact absurd rfl (h s)
  | dict l => exact ⟨rfl, rfl, fun label s hs => Payload.noConfusion hs⟩

/-- An all-quiet retrieve oracle used by concrete witnesses. -/
def emptyRetrieveOracle : Nat → RawResponse RetrieveResponse :=
  fun _ => ⟨none, ⟨[], []⟩⟩

/-- Witness for C10: the loop's own dict payload gets `TypeError`, zero
POSTs issued. -/
theorem nonstring_payload_type_error_witness :
    (send_request_to_USGS (retrieveLoopPayload "20240101_000000")
      emptyRetrieveOracle).result = Except.error PyError.typeError
    ∧ (send_request_to_USGS (retrieveLoopPayload "20240101_000000")
        emptyRetrieveOracle).posts = 0 := by
  have h := nonstring_payload_type_error (retrieveLoopPayload "20240101_000000")
    emptyRetrieveOracle (fun s hs => Payload.noConfusion hs)
  exact ⟨h.1, h.2.1⟩

/-- C8: on a `RATE_LIMIT` error code in the first response, the transport
issues exactly two POSTs with a single fixed 3-second delay between them;
a clean retry is observed as success, a second rate limit propagates as
`USGSRateLimitError`; any other first-response error kind propagates
immediately after a single POST with no delay; a clean first response is
success after one POST. -/
theorem rate_limit_single_retry {β : Type} (s : String) (oracle : Nat → RawResponse β) :
    ((oracle 0).errorCode = some "RATE_LIMIT" →
      (send_request_to_USGS (Payload.str s) oracle).posts = 2
      ∧ (send_request_to_USGS (Payload.str s) oracle).delays = [3]
      ∧ ((oracle 1).errorCode = none →
          (send_request_to_USGS (Payload.str s) oracle).result = Except.ok (oracle 1))
      ∧ ((oracle 1).errorCode = some "RATE_LIMIT" →
          (send_request_to_USGS (Payload.str s) oracle).result
            = Except.error (PyError.usgs USGSErr.rateLimit)))
    ∧ (∀ e, check_exceptions (oracle 0).errorCode = some e → e ≠ USGSErr.rateLimit →
        (send_request_to_USGS (Payload.str s) oracle).result
          = Except.error (PyError.usgs e)
        ∧ (send_request_to_USGS (Payload.str s) oracle).posts = 1
        ∧ (send_request_to_USGS (Payload.str s) oracle).delays = [])
    ∧ ((oracle 0).errorCode = none →
        (send_request_to_USGS (Payload.str s) oracle).result = Except.ok (oracle 0)
        ∧ (send_request_to_USGS (Payload.str s) oracle).posts = 1) := by
  refine ⟨fun h0 => ?_, fun e he hne => ?_, fun h0 => ?_⟩
  · have hc : check_exceptions (oracle 0).errorCode = some USGSErr.rateLimit := by
      rw [h0]; rfl
    refine ⟨?_, ?_, fun h1 => ?_, fun h1 => ?_⟩
    · rcases hck : check_exceptions (oracle 1).errorCode with _ | e1 <;>
        simp [send_request_to_USGS, hc, hck]
    · rcases hck : check_exceptions (oracle 1).errorCode with _ | e1 <;>
        simp [send_request_to_USGS, hc, hck]
    · have hc1 : check_exceptions (oracle 1).errorCode = none := by rw [h1]; rfl
      simp [send_request_to_USGS, hc, hc1]
    · have hc1 : check_exceptions (oracle 1).errorCode = some USGSErr.rateLimit := by
        rw [h1]; rfl
      simp [send_request_to_USGS, hc, hc1]
  · cases e with
    | rateLimit => exact absurd rfl hne
    | authentication => simp [send_request_to_USGS, he]
    | unauthorized => simp [send_request_to_USGS, he]
    | datasetAuth => simp [send_request_to_USGS, he]
    | generic => simp [send_request_to_USGS, he]
  · have hc : check_exceptions (oracle 0).errorCode = none := by rw [h0]; rfl
    simp [send_request_to_USGS, hc]

/-- Oracle for the C8 witness: rate-limited first POST, clean retry. -/
def rlOracle : Nat → RawResponse Unit :=
  fun n => if n = 0 then ⟨some "RATE_LIMIT", ()⟩ else ⟨none, ()⟩

/-- Witness for C8: the retry scenario evaluated concretely. -/
theorem rate_limit_single_retry_witness :
    (send_request_to_USGS (Payload.str "body") rlOracle).posts = 2
    ∧ (send_request_to_USGS (Payload.str "body") rlOracle).delays = [3]
    ∧ (send_request_to_USGS (Payload.str "body") rlOracle).result
        = Except.ok (rlOracle 1) := by
  have h := (rate_limit_single_retry "body" rlOracle).1 rfl
  exact ⟨h.1, h.2.1, h.2.2.1 rfl⟩

/- ------------------------------------------------------------------ -/
/- Claim theorems: the polling loop guard (C4).                        -/

/-- C4: the polling loop's guard is exactly
`len(download_ids) < requested_download_count - len(failed)`: with `j < k`
failed entries, the loop returns normally with zero sleeps precisely when
the resolved count after the first response's passes already reaches
`k - j`; and at any iteration, as soon as the resolved count reaches
`k - j` the loop exits immediately, never waiting on failed entries. -/
theorem poll_guard_exact (more : RetrieveResponse) (rr : RequestResults) (k : Nat)
    (pollO : Nat → Nat → RawResponse RetrieveResponse) (times : Nat → Nat)
    (fuel : Nat) (hfuel : 0 < fuel) (_hjk : rr.failed.length < k) :
    (((manage_downloads more rr k pollO times fuel).2 = Outcome.ok
       ∧ sleepCount (manage_downloads more rr k pollO times fuel).1 = 0)
      ↔ k - rr.failed.length ≤ (resolvedAfterFirst more rr).length)
    ∧ (∀ fuel' i ids, k - rr.failed.length ≤ List.length ids →
        manage_downloads_loop rr k pollO times fuel' i ids = ([], Outcome.ok)) := by
  constructor
  · by_cases hg : k - rr.failed.length ≤ (resolvedAfterFirst more rr).length
    · simp only [manage_downloads]
      rw [show (dispatch_pass rr more.requested (dispatch_pass rr more.available []).1).1
            = resolvedAfterFirst more rr from rfl]
      rw [manage_loop_exit rr k pollO times fuel 0 _ hg]
      constructor
      · intro _; exact hg
      · intro _
        refine ⟨rfl, ?_⟩
        simp only [dispatch_pass_eq, List.nil_append, List.append_nil]
        rw [sleepCount_append, sleepCount_dispatch_map, sleepCount_dispatch_map]
    · have hg' : (resolvedAfterFirst more rr).length < k - rr.failed.length := by omega
      obtain ⟨f, rfl⟩ : ∃ f, fuel = f + 1 := ⟨fuel - 1, by omega⟩
      simp only [manage_downloads]
      rw [show (dispatch_pass rr more.requested (dispatch_pass rr more.available []).1).1
            = resolvedAfterFirst more rr from rfl]
      rw [manage_loop_enter rr k pollO times f 0 _ hg']
      constructor
      · rintro ⟨hok, _⟩; exact absurd hok (by simp)
      · intro hge; omega
  · intro fuel' i ids h
    exact manage_loop_exit rr k pollO times fuel' i ids h

/-- Request results for the C4 witness: one candidate, none failed. -/
def rrW4 : RequestResults := ⟨["1"], [], [], true, []⟩

/-- First retrieve response for the C4 witness: the one id resolves. -/
def moreW4 : RetrieveResponse := ⟨[⟨"1", "u"⟩], []⟩

/-- A loop-poll oracle answering every poll cleanly and emptily. -/
def zeroPollO : Nat → Nat → RawResponse RetrieveResponse :=
  fun _ _ => ⟨none, ⟨[], []⟩⟩

/-- Witness for C4: with `k = 1`, `j = 0` and the single id resolved by
the first response, the loop exits at once with no sleep. -/
theorem poll_guard_exact_witness :
    ((0 : Nat) < 1 ∧ rrW4.failed.length < 1)
    ∧ (manage_downloads moreW4 rrW4 1 zeroPollO (fun _ => 0) 1).2 = Outcome.ok
    ∧ sleepCount (manage_downloads moreW4 rrW4 1 zeroPollO (fun _ => 0) 1).1 = 0 := by
  refine ⟨⟨by decide, by decide⟩, ?_⟩
  exact ((poll_guard_exact moreW4 rrW4 1 zeroPollO (fun _ => 0) 1
    (by decide) (by decide)).1).mpr (by decide)

/- ------------------------------------------------------------------ -/
/- Claim theorems: streaming dispatch of retrieve entries (C5).        -/

/-- Request results for the C5 scenario: one new record, none failed. -/
def rrC5 : RequestResults := ⟨["1"], [], [], true, []⟩

/-- First retrieve response for the C5 scenario: the same downloadId is
listed in both `available` and `requested`. -/
def moreC5 : RetrieveResponse := ⟨[⟨"1", "u"⟩], [⟨"1", "u"⟩]⟩

/-- C5 counterexample: the first response's passes apply no
not-yet-resolved check, so a downloadId occurring in both `available` and
`requested` is handed to the Fetch Pool twice — refuting "no downloadId is
dispatched more than once". -/
theorem duplicate_dispatch_cex :
    (manage_downloads moreC5 rrC5 1 zeroPollO (fun _ => 0) 3).1.count
      (Event.dispatch "1" "u") = 2 := by decide

/-- C5 (amended): for every retrieve response handed to
`_manage_downloads`, the first response's `available` and `requested`
entries whose downloadId is in `newRecords` or `duplicateProducts` are
each dispatched immediately, once per occurrence and with no
already-resolved check; later poll responses (only their `available`
lists) would be subject to the dedup pass; and a downloadId in neither
set is never dispatched. -/
theorem first_response_dispatch_amended (more : RetrieveResponse) (rr : RequestResults)
    (k : Nat) (pollO : Nat → Nat → RawResponse RetrieveResponse) (times : Nat → Nat)
    (fuel : Nat) :
    (manage_downloads more rr k pollO times fuel).1
      = ((more.available ++ more.requested).filter (inRecords rr)).map
          (fun d => Event.dispatch d.downloadId d.url)
        ++ (manage_downloads_loop rr k pollO times fuel 0
              (((more.available ++ more.requested).filter (inRecords rr)).map
                (fun d => d.downloadId))).1
    ∧ (∀ i u, Event.dispatch i u ∈ (manage_downloads more rr k pollO times fuel).1 →
        (rr.newRecords.contains i || rr.duplicateProducts.contains i) = true) := by
  have hmd : (manage_downloads more rr k pollO times fuel).1
      = ((more.available ++ more.requested).filter (inRecords rr)).map
          (fun d => Event.dispatch d.downloadId d.url)
        ++ (manage_downloads_loop rr k pollO times fuel 0
              (((more.available ++ more.requested).filter (inRecords rr)).map
                (fun d => d.downloadId))).1 := by
    simp only [manage_downloads, dispatch_pass_eq, List.nil_append, List.filter_append,
      List.map_append, List.append_assoc]
  refine ⟨hmd, fun i u hmem => ?_⟩
  rw [hmd] at hmem
  rcases List.mem_append.mp hmem with h | h
  · obtain ⟨d, hd, he⟩ := List.mem_map.mp h
    have hin : inRecords rr d = true := (List.mem_filter.mp hd).2
    cases he
    simpa [inRecords] using hin
  · have hdm : Event.dispatch i u ∈ dispatchEvents
        (manage_downloads_loop rr k pollO times fuel 0
          (((more.available ++ more.requested).filter (inRecords rr)).map
            (fun d => d.downloadId))).1 := List.mem_filter.mpr ⟨h, rfl⟩
    rw [manage_loop_no_dispatch] at hdm
    simp at hdm

/-- Witness for C5 (amended): the dispatched id of the concrete scenario
is indeed among the submission's `newRecords`. -/
theorem first_response_dispatch_amended_witness :
    Event.dispatch "1" "u" ∈ (manage_downloads moreC5 rrC5 1 zeroPollO (fun _ => 0) 3).1
    ∧ (rrC5.newRecords.contains "1" || rrC5.duplicateProducts.contains "1") = true := by
  refine ⟨by decide, ?_⟩
  exact (first_response_dispatch_amended moreC5 rrC5 1 zeroPollO
    (fun _ => 0) 3).2 "1" "u" (by decide)

/- ------------------------------------------------------------------ -/
/- Claim theorem: the polling loop's label (C3).                       -/

/-- Request results of the C3 run: both ids new, none failed, staging. -/
def rrC3 : RequestResults := ⟨["1", "2"], [], [], true, []⟩

/-- The remote of the C3 run: two available products; the submission
stages both; the first retrieve resolves only id "1". -/
def remoteC3 : Remote :=
  ⟨fun _ => ⟨none, [⟨"E1", "1", true⟩, ⟨"E2", "2", true⟩]⟩,
   fun _ => ⟨none, rrC3⟩,
   fun _ => ⟨none, ⟨[⟨"1", "u1"⟩], []⟩⟩,
   fun _ _ => ⟨none, ⟨[], []⟩⟩⟩

/-- C3 (code bug, full evaluation at the failing input): with the label
generated at second 100 and the loop polling at second 161, the first
retrieve poll carries the original label as a JSON string, but the loop's
poll regenerates a fresh timestamp label — different from the original —
and passes it as a raw dict, so the call dies with `TypeError`.  The
claim that every poll carries the submission's label fails on the code. -/
theorem poll_label_divergence :
    download_scene "L8" remoteC3 100 (fun _ => 161) 5
      = ([Event.call "download-options" (Payload.str (optionsPayloadJson "L8")),
          Event.call "download-request"
            (Payload.str (requestPayloadJson [⟨"E1", "1"⟩, ⟨"E2", "2"⟩] (strftime 100))),
          Event.call "download-retrieve" (Payload.str (jsonDumpsLabel (strftime 100))),
          Event.dispatch "1" "u1",
          Event.sleep 30,
          Event.call "download-retrieve" (retrieveLoopPayload (strftime 161))],
         Outcome.raised PyError.typeError)
    ∧ strftime 161 ≠ strftime 100 := by
  constructor
  · rfl
  · decide

/- ------------------------------------------------------------------ -/
/- Claim theorems: orchestrator paths (C6, C7).                        -/

theorem dispatchEvents_dispatch_map (l : List DownloadEntry) :
    dispatchEvents (l.map (fun d => Event.dispatch d.downloadId d.url))
      = l.map (fun d => Event.dispatch d.downloadId d.url) := by
  induction l with
  | nil => rfl
  | cons d l ih =>
    simp only [dispatchEvents] at ih ⊢
    simp [List.map_cons, List.filter_cons, ih]

theorem callCount_dispatch_map (ep : String) (l : List DownloadEntry) :
    callCount ep (l.map (fun d => Event.dispatch d.downloadId d.url)) = 0 := by
  induction l with
  | nil => rfl
  | cons d l ih =>
    simp only [callCount] at ih ⊢
    simp [List.map_cons, List.filter_cons, ih]

/-- C6: whenever the submission response has `preparingDownloads = false`,
`download_scene` returns cleanly, spawns exactly one FetchTask per entry
of the response's `availableDownloads` sequence (in order), and never
calls the "download-retrieve" endpoint. -/
theorem immediate_available_no_retrieve (dn : String) (remote : Remote) (t0 : Nat)
    (times : Nat → Nat) (fuel : Nat) (rawO : RawResponse (List Product))
    (rawR : RawResponse RequestResults)
    (hO : (send_request_to_USGS (Payload.str (optionsPayloadJson dn)) remote.options).result
            = Except.ok rawO)
    (hne : candidatesOf rawO.data ≠ [])
    (hR : (send_request_to_USGS
            (Payload.str (requestPayloadJson (candidatesOf rawO.data) (strftime t0)))
            remote.request).result = Except.ok rawR)
    (hprep : rawR.data.preparingDownloads = false) :
    (download_scene dn remote t0 times fuel).2 = Outcome.ok
    ∧ dispatchEvents (download_scene dn remote t0 times fuel).1
        = rawR.data.availableDownloads.map (fun d => Event.dispatch d.downloadId d.url)
    ∧ callCount "download-retrieve" (download_scene dn remote t0 times fuel).1 = 0 := by
  have hie : (candidatesOf rawO.data).isEmpty = false := by
    cases hc : candidatesOf rawO.data with
    | nil => exact absurd hc hne
    | cons c cs => rfl
  have hds : download_scene dn remote t0 times fuel
      = ([Event.call "download-options" (Payload.str (optionsPayloadJson dn)),
          Event.call "download-request"
            (Payload.str (requestPayloadJson (candidatesOf rawO.data) (strftime t0)))]
         ++ rawR.data.availableDownloads.map (fun d => Event.dispatch d.downloadId d.url),
         Outcome.ok) := by
    simp [download_scene, hO, hie, hR, hprep]
  rw [hds]
  refine ⟨rfl, ?_, ?_⟩
  · rw [dispatchEvents_append, dispatchEvents_dispatch_map]; rfl
  · rw [callCount_append, callCount_dispatch_map]; rfl

/-- Request results for the C6 witness: everything immediately available. -/
def rrW6 : RequestResults := ⟨[], [], [], false, [⟨"7", "u7"⟩]⟩

/-- The remote of the C6 witness run. -/
def remoteW6 : Remote :=
  ⟨fun _ => ⟨none, [⟨"E", "P", true⟩]⟩,
   fun _ => ⟨none, rrW6⟩,
   fun _ => ⟨none, ⟨[], []⟩⟩,
   fun _ _ => ⟨none, ⟨[], []⟩⟩⟩

/-- Witness for C6: one available download, one FetchTask, no retrieve. -/
theorem immediate_available_no_retrieve_witness :
    (download_scene "DS" remoteW6 7 (fun _ => 0) 2).2 = Outcome.ok
    ∧ dispatchEvents (download_scene "DS" remoteW6 7 (fun _ => 0) 2).1
        = [Event.dispatch "7" "u7"]
    ∧ callCount "download-retrieve" (download_scene "DS" remoteW6 7 (fun _ => 0) 2).1 = 0 := by
  have h := immediate_available_no_retrieve "DS" remoteW6 7 (fun _ => 0) 2
    ⟨none, [⟨"E", "P", true⟩]⟩ ⟨none, rrW6⟩ rfl (by decide) rfl rfl
  exact ⟨h.1, by rw [h.2.1]; rfl, h.2.2⟩

/-- C7: if the options response marks no product available, or the
options call fails with the dataset-authorization error (swallowed and
logged at this layer), `download_scene` returns cleanly having submitted
no download-request, polled no retrieve, and spawned no FetchTask; any
other failure of the options call propagates unchanged. -/
theorem options_empty_or_dataset_auth (dn : String) (remote : Remote) (t0 : Nat)
    (times : Nat → Nat) (fuel : Nat) :
    (((send_request_to_USGS (Payload.str (optionsPayloadJson dn)) remote.options).result
        = Except.error (PyError.usgs USGSErr.datasetAuth)
      ∨ (∃ rawO, (send_request_to_USGS (Payload.str (optionsPayloadJson dn))
            remote.options).result = Except.ok rawO
          ∧ candidatesOf rawO.data = [])) →
      (download_scene dn remote t0 times fuel).2 = Outcome.ok
      ∧ callCount "download-request" (download_scene dn remote t0 times fuel).1 = 0
      ∧ callCount "download-retrieve" (download_scene dn remote t0 times fuel).1 = 0
      ∧ dispatchEvents (download_scene dn remote t0 times fuel).1 = [])
    ∧ (∀ e, (send_request_to_USGS (Payload.str (optionsPayloadJson dn))
          remote.options).result = Except.error e →
        e ≠ PyError.usgs USGSErr.datasetAuth →
        (download_scene dn remote t0 times fuel).2 = Outcome.raised e) := by
  constructor
  · intro h
    have hds : download_scene dn remote t0 times fuel
        = ([Event.call "download-options" (Payload.str (optionsPayloadJson dn))],
           Outcome.ok) := by
      rcases h with h | ⟨rawO, hok, hc⟩
      · simp [download_scene, h]
      · have hie : (candidatesOf rawO.data).isEmpty = true := by rw [hc]; rfl
        simp [download_scene, hok, hie]
    rw [hds]
    exact ⟨rfl, rfl, rfl, rfl⟩
  · intro e he hne
    cases e with
    | typeError => simp [download_scene, he]
    | exc m => simp [download_scene, he]
    | usgs eu =>
      cases eu with
      | datasetAuth => exact absurd rfl hne
      | authentication => simp [download_scene, he]
      | unauthorized => simp [download_scene, he]
      | rateLimit => simp [download_scene, he]
      | generic => simp [download_scene, he]

/-- The remote of the C7 witness run: the spec's scenario, a single
candidate whose options entry is marked unavailable. -/
def remoteW7 : Remote :=
  ⟨fun _ => ⟨none, [⟨"LC08", "P1", false⟩]⟩,
   fun _ => ⟨none, ⟨[], [], [], false, []⟩⟩,
   fun _ => ⟨none, ⟨[], []⟩⟩,
   fun _ _ => ⟨none, ⟨[], []⟩⟩⟩

/-- Witness for C7: nothing available, clean return, nothing submitted. -/
theorem options_empty_or_dataset_auth_witness :
    (download_scene "LS" remoteW7 0 (fun _ => 0) 1).2 = Outcome.ok
    ∧ callCount "download-request" (download_scene "LS" remoteW7 0 (fun _ => 0) 1).1 = 0
    ∧ callCount "download-retrieve" (download_scene "LS" remoteW7 0 (fun _ => 0) 1).1 = 0
    ∧ dispatchEvents (download_scene "LS" remoteW7 0 (fun _ => 0) 1).1 = [] :=
  (options_empty_or_dataset_auth "LS" remoteW7 0 (fun _ => 0) 1).1
    (Or.inr ⟨⟨none, [⟨"LC08", "P1", false⟩]⟩, rfl, rfl⟩)

/- ------------------------------------------------------------------ -/
/- Claim theorem: worker failures are isolated (C9).                   -/

/-- One whole run: the orchestrator trace and outcome, together with one
worker execution per dispatched FetchTask, each worker's course chosen by
`fo` (the environment: network, disk, headers).  Workers are
fire-and-forget for the orchestrator, which only joins them at the end. -/
def runSystem (dn : String) (remote : Remote) (t0 : Nat) (times : Nat → Nat)
    (fuel : Nat) (fo : Nat → FetchOutcome) :
    Outcome × List (List WEvent × Option PyError) :=
  ((download_scene dn remote t0 times fuel).2,
   (List.range (dispatchEvents (download_scene dn remote t0 times fuel).1).length).map
     (fun i => download_file (fo i)))

/-- C9: for every fetch worker, any error raised during its one file's
fetch is caught and logged inside the worker and never escapes; and the
orchestrator's outcome is identical whatever course each worker's fetch
takes — one file's failure affects neither `download_scene`'s result nor
sibling transfers. -/
theorem fetch_errors_isolated (dn : String) (remote : Remote) (t0 : Nat)
    (times : Nat → Nat) (fuel : Nat) (fo fo' : Nat → FetchOutcome) :
    (runSystem dn remote t0 times fuel fo).1 = (runSystem dn remote t0 times fuel fo').1
    ∧ (∀ o : FetchOutcome, (download_file o).2 = none)
    ∧ (∀ e : PyError, (download_file (FetchOutcome.raised e)).1
        = [WEvent.acquire, WEvent.logErr, WEvent.release]) := by
  refine ⟨rfl, fun o => ?_, fun e => rfl⟩
  cases o <;> rfl
